import Mathlib

/-!
Shallow embedding of `src/data-exploration/debug_notebook.py` from the
water-watcher repository, together with theorems settling the spec's claims.

The script is a diagnostic harness with four steps:
  1. `test_imports`  — environment probe over three libraries;
  2. `test_usgs_api` — one HTTP GET, status/preview reporting;
  3. `create_sample_data` — a hard-coded 5-row station table;
  4. a priority-parameter filter and report inside `main`.

Console output is modelled as a `List String`, one element per `print` call.
The Python environment (which libraries load, what the transport returns) is
modelled as explicit input data, since the script's behaviour is a pure
function of those outcomes.
-/

namespace WaterWatcher

/-- Outcome of `import pandas` / `import folium` in the probe's environment:
either an `ImportError` message, or success exposing a `__version__` string
(the script reads `__version__` unconditionally on success). -/
def LibWithVersion := Except String String

/-- Outcome of `import requests`: either an `ImportError` message, or success
optionally exposing a version string.  The script never reads a version from
this library, so the exposed version (if any) is carried but unread. -/
def LibOptVersion := Except String (Option String)

/-- The environment `test_imports` probes: the three libraries in the order
the source checks them (pandas, requests, folium). -/
structure PyEnv where
  pandas : Except String String
  requests : Except String (Option String)
  folium : Except String String

/-- Embedding of `test_imports` (debug_notebook.py lines 13-38).
Returns the Python function's boolean result together with the lines it
prints, in order.  Each `try/except ImportError` block is a `match` on the
corresponding environment field; a failure prints the error and returns
`False` immediately, so later fields are never examined. -/
def test_imports (env : PyEnv) : Bool × List String :=
  let out0 := ["🔧 Testing imports..."]
  match env.pandas with
  | .error e => (false, out0 ++ ["❌ pandas: " ++ e])
  | .ok pv =>
    let out1 := out0 ++ ["✅ pandas " ++ pv]
    match env.requests with
    | .error e => (false, out1 ++ ["❌ requests: " ++ e])
    | .ok _ =>
      let out2 := out1 ++ ["✅ requests available"]
      match env.folium with
      | .error e => (false, out2 ++ ["❌ folium: " ++ e])
      | .ok fv => (true, out2 ++ ["✅ folium " ++ fv])

/-- A monitoring-station record as built in `create_sample_data`
(debug_notebook.py lines 44-55).  Latitude/longitude are exact decimal
literals in the source, embedded as rationals. -/
structure SiteRow where
  site_no : String
  station_nm : String
  lat : Rat
  lon : Rat
  state : String
  county : String
  huc_cd : String
deriving DecidableEq

/-- A station record after the three parameter columns are assigned
(debug_notebook.py lines 57-60). -/
structure SampleRow extends SiteRow where
  parameter_cd : String
  parameter_name : String
  unit : String
deriving DecidableEq

/-- The `sample_sites` literal list (debug_notebook.py lines 44-55). -/
def sample_sites : List SiteRow :=
  [⟨"09371010", "SAN JUAN RIVER AT FOUR CORNERS, CO", 36.9989, -109.0453, "CO", "083", "14080201"⟩,
   ⟨"09379500", "SAN JUAN RIVER NEAR BLUFF, UT", 37.1906, -109.5281, "UT", "037", "14080204"⟩,
   ⟨"09368000", "SAN JUAN RIVER AT SHIPROCK, NM", 36.7856, -108.7267, "NM", "045", "14080105"⟩,
   ⟨"09364500", "ANIMAS RIVER AT FARMINGTON, NM", 36.7281, -108.1842, "NM", "045", "14080104"⟩,
   ⟨"09355500", "ANIMAS RIVER AT DURANGO, CO", 37.2756, -107.8803, "CO", "067", "14080104"⟩]

/-- Embedding of `create_sample_data` (debug_notebook.py lines 40-63): the
DataFrame built from `sample_sites` with the three broadcast column
assignments `parameter_cd = '00060'`, `parameter_name = ...`, `unit = 'cfs'`.
The function takes no inputs and builds the table from literals only. -/
def create_sample_data : List SampleRow :=
  sample_sites.map (fun r =>
    ⟨r, "00060", "Streamflow, cubic feet per second", "cfs"⟩)

/-- The line `create_sample_data` prints (debug_notebook.py line 62). -/
def create_sample_data_out : List String :=
  ["📝 Created sample dataset with " ++ toString create_sample_data.length ++ " sites"]

/-- Outcome of `requests.get(url, params=params, timeout=10)`: either an
exception raised during the request (timeout, DNS failure, connection
refused, ...), or a completed response with a status code and a body text. -/
inductive HttpResult where
  | exn (msg : String)
  | resp (status : Nat) (body : String)

/-- The fixed endpoint of the reachability check (debug_notebook.py line 72). -/
def usgs_url : String := "https://waterservices.usgs.gov/nwis/site/"

/-- The fixed query parameters of the reachability check
(debug_notebook.py lines 73-78). -/
def usgs_params : List (String × String) :=
  [("format", "rdb"), ("bBox", "-109.0,36.5,-108.0,37.0"),
   ("siteType", "ST"), ("siteStatus", "active")]

/-- Embedding of `response.text.strip().split('\n')[:10]`
(debug_notebook.py line 84): the preview lines printed on a 200 response. -/
def previewLines (body : String) : List String :=
  (body.trim.splitOn "\n").take 10

/-- Embedding of `test_usgs_api` (debug_notebook.py lines 65-95).  The
transport outcome is an input; the `except Exception` branch is the `exn`
case.  Returns the boolean result and the printed lines in order. -/
def test_usgs_api (r : HttpResult) : Bool × List String :=
  let out0 := ["🌐 Testing USGS API..."]
  match r with
  | .exn e => (false, out0 ++ ["❌ API test failed: " ++ e])
  | .resp status body =>
    let out1 := out0 ++ ["📡 API Status: " ++ toString status]
    if status = 200 then
      (true, out1 ++ ["📄 Sample response:"]
                  ++ (previewLines body).map (fun l => "  " ++ l))
    else
      (false, out1 ++ ["❌ API returned status " ++ toString status])

/-- The `PRIORITY_PARAMETERS` dict literal (debug_notebook.py lines 126-134),
as an association list in source order.  It is a local literal inside `main`
and is never reassigned or mutated after this definition. -/
def PRIORITY_PARAMETERS : List (String × String) :=
  [("00060", "Streamflow (Discharge), cubic feet per second"),
   ("00065", "Gage height, feet"),
   ("00010", "Water temperature, degrees Celsius"),
   ("00095", "Specific conductance, microsiemens per centimeter"),
   ("00300", "Dissolved oxygen, milligrams per liter"),
   ("00400", "pH, standard units"),
   ("00480", "Salinity, parts per thousand")]

/-- Embedding of the priority filter (debug_notebook.py line 141):
`usgs_sites[usgs_sites['parameter_cd'].isin(PRIORITY_PARAMETERS.keys())].copy()`.
Row selection by a boolean membership mask; `.copy()` returns a fresh frame,
so the input frame is not aliased or mutated. -/
def priorityFilter (df : List SampleRow) : List SampleRow :=
  df.filter (fun r => (PRIORITY_PARAMETERS.map Prod.fst).contains r.parameter_cd)

/-- The fixed header lines `main` prints before the probe
(debug_notebook.py lines 99-105); the Python version, executable path and
working directory are environment inputs. -/
def mainHeader (pyVersion pyExec cwd : String) : List String :=
  ["🔍 Colorado Plateau Water Analysis - Debug Mode",
   String.mk (List.replicate 50 '='),
   "🐍 Python: " ++ pyVersion,
   "📍 Python executable: " ++ pyExec,
   "💻 Working directory: " ++ cwd]

/-- Embedding of `main` (debug_notebook.py lines 97-145) as a pure function
from the environment and the transport outcome to the full console output.
`main` always returns normally (the process exits with code 0): a failed
probe takes the early `return`, and every other failure mode is caught
inside the step that detects it. -/
def main (env : PyEnv) (api : HttpResult) (pyVersion pyExec cwd : String) :
    List String :=
  let imp := test_imports env
  if imp.1 = false then
    mainHeader pyVersion pyExec cwd ++ imp.2 ++ ["❌ Import test failed!"]
  else
    let usgs_sites := create_sample_data
    let priority_sites := priorityFilter usgs_sites
    mainHeader pyVersion pyExec cwd
      ++ imp.2
      ++ (test_usgs_api api).2
      ++ ["\n📊 Creating sample data..."]
      ++ create_sample_data_out
      ++ ["\n📈 Basic Analysis:",
          "  Total sites: " ++ toString usgs_sites.length,
          "  States: " ++ toString ((usgs_sites.map (fun r => r.state)).eraseDups),
          "  Sample site: " ++ (usgs_sites.head?.elim "" (fun r => r.station_nm)),
          "\n🎯 Priority Parameters:"]
      ++ PRIORITY_PARAMETERS.map (fun p => "  " ++ p.1 ++ ": " ++ p.2)
      ++ ["\n✅ Sites with priority parameters: " ++ toString priority_sites.length,
          "\n🎉 Debug test completed successfully!",
          "🔄 You can now copy working code back to the notebook"]

/-- Auxiliary substring machinery (kernel-computable): does `pat` start the
list `l`? -/
def startsWithChars : List Char → List Char → Bool
  | [], _ => true
  | _ :: _, [] => false
  | p :: ps, c :: cs => (p == c) && startsWithChars ps cs

/-- Does `pat` occur contiguously anywhere in the list? -/
def occursInChars (pat : List Char) : List Char → Bool
  | [] => startsWithChars pat []
  | c :: cs => startsWithChars pat (c :: cs) || occursInChars pat cs

/-- Does the string `pat` occur as a contiguous substring of `s`? -/
def containsStr (s pat : String) : Bool := occursInChars pat.data s.data

/-- C1: `create_sample_data`, called with no inputs, returns a table of
exactly 5 station records whose site identifiers are exactly the set
`{09371010, 09379500, 09368000, 09364500, 09355500}`, and every record is
assigned parameter code `00060` together with one shared parameter
description and one shared unit string. -/
theorem create_sample_data_five_sites :
    create_sample_data.length = 5
    ∧ (create_sample_data.map (fun r => r.site_no)).toFinset =
        ({"09371010", "09379500", "09368000", "09364500", "09355500"} : Finset String)
    ∧ create_sample_data.all (fun r =>
        r.parameter_cd == "00060"
        && r.parameter_name == "Streamflow, cubic feet per second"
        && r.unit == "cfs") = true := by
  refine ⟨rfl, by decide, by decide⟩

/-- C2: the priority filter applied to the unmodified output of
`create_sample_data` returns exactly 5 rows, and filtering a second time
yields exactly the same 5 rows (idempotence on that output). -/
theorem priority_filter_five_and_idempotent :
    (priorityFilter create_sample_data).length = 5
    ∧ priorityFilter (priorityFilter create_sample_data) =
        priorityFilter create_sample_data :=
  ⟨rfl, rfl⟩

/-- C3: `PRIORITY_PARAMETERS` contains exactly the 7 keys
`{00060, 00065, 00010, 00095, 00300, 00400, 00480}`, without duplicates,
each mapped to its fixed human-readable description.  The mapping is a
literal constant (a plain `def` here, a local dict literal in the source
that is never reassigned or mutated), hence identical on every run. -/
theorem priority_parameters_fixed :
    PRIORITY_PARAMETERS.length = 7
    ∧ (PRIORITY_PARAMETERS.map Prod.fst).Nodup
    ∧ (PRIORITY_PARAMETERS.map Prod.fst).toFinset =
        ({"00060", "00065", "00010", "00095", "00300", "00400", "00480"} : Finset String)
    ∧ PRIORITY_PARAMETERS.lookup "00060" =
        some "Streamflow (Discharge), cubic feet per second"
    ∧ PRIORITY_PARAMETERS.lookup "00065" = some "Gage height, feet"
    ∧ PRIORITY_PARAMETERS.lookup "00010" =
        some "Water temperature, degrees Celsius"
    ∧ PRIORITY_PARAMETERS.lookup "00095" =
        some "Specific conductance, microsiemens per centimeter"
    ∧ PRIORITY_PARAMETERS.lookup "00300" =
        some "Dissolved oxygen, milligrams per liter"
    ∧ PRIORITY_PARAMETERS.lookup "00400" = some "pH, standard units"
    ∧ PRIORITY_PARAMETERS.lookup "00480" =
        some "Salinity, parts per thousand" := by
  refine ⟨rfl, by decide, by decide, rfl, rfl, rfl, rfl, rfl, rfl, rfl⟩

/-- C4: the environment probe checks pandas, then requests, then folium, in
that order; for each of the three, a load failure makes the probe return
`False` immediately, with an output that records no attempt at any check
declared after the failing one (the later environment fields `r`, `fl`,
`rv` are arbitrary and do not influence the result); if all three load,
it returns `True`. -/
theorem test_imports_order_and_short_circuit
    (e pv fv : String) (rv : Option String)
    (r : Except String (Option String)) (fl : Except String String) :
    test_imports ⟨.error e, r, fl⟩ =
      (false, ["🔧 Testing imports...", "❌ pandas: " ++ e])
    ∧ test_imports ⟨.ok pv, .error e, fl⟩ =
      (false, ["🔧 Testing imports...", "✅ pandas " ++ pv, "❌ requests: " ++ e])
    ∧ test_imports ⟨.ok pv, .ok rv, .error e⟩ =
      (false, ["🔧 Testing imports...", "✅ pandas " ++ pv,
               "✅ requests available", "❌ folium: " ++ e])
    ∧ test_imports ⟨.ok pv, .ok rv, .ok fv⟩ =
      (true, ["🔧 Testing imports...", "✅ pandas " ++ pv,
              "✅ requests available", "✅ folium " ++ fv]) :=
  ⟨rfl, rfl, rfl, rfl⟩

/-- C5: the reachability check never raises past its own boundary: every
transport-level exception (modelled as the `exn` case, covering timeout,
DNS failure, connection refused, and any other exception during the
request) is caught, a diagnostic derived from the failure reason is
printed, and the check returns `False`.  Totality of `test_usgs_api`
models the absence of an escaping exception. -/
theorem test_usgs_api_catches_transport_errors (msg : String) :
    test_usgs_api (.exn msg) =
      (false, ["🌐 Testing USGS API...", "❌ API test failed: " ++ msg]) :=
  rfl

/-- C6: for every completed HTTP response the check prints the numeric
status code; it returns `True` if and only if the status is 200, in which
case the printed preview is exactly the first at-most-10 lines of the
stripped response body (so it never exceeds 10 lines); for any other
status it prints the non-success status and returns `False`. -/
theorem test_usgs_api_status_and_preview (status : Nat) (body : String) :
    (((test_usgs_api (.resp status body)).1 = true) ↔ status = 200)
    ∧ ("📡 API Status: " ++ toString status) ∈ (test_usgs_api (.resp status body)).2
    ∧ (status = 200 →
        (test_usgs_api (.resp status body)).2 =
          ["🌐 Testing USGS API...", "📡 API Status: " ++ toString status,
           "📄 Sample response:"] ++ (previewLines body).map (fun l => "  " ++ l)
        ∧ (previewLines body).length ≤ 10)
    ∧ (status ≠ 200 →
        ("❌ API returned status " ++ toString status) ∈
          (test_usgs_api (.resp status body)).2) := by
  by_cases h : status = 200 <;>
    simp [test_usgs_api, previewLines, h, List.length_take]

/-- C6 witness: a stubbed 200 response whose body has 12 lines yields
success, and the preview printed for it has at most 10 lines. -/
theorem test_usgs_api_status_and_preview_witness :
    (test_usgs_api (.resp 200 "a\nb\nc\nd\ne\nf\ng\nh\ni\nj\nk\nl")).1 = true
    ∧ (previewLines "a\nb\nc\nd\ne\nf\ng\nh\ni\nj\nk\nl").length ≤ 10 :=
  ⟨(test_usgs_api_status_and_preview 200 "a\nb\nc\nd\ne\nf\ng\nh\ni\nj\nk\nl").1.mpr rfl,
   ((test_usgs_api_status_and_preview 200 "a\nb\nc\nd\ne\nf\ng\nh\ni\nj\nk\nl").2.2.1 rfl).2⟩

/-- C7: whenever all three libraries load, `main` reaches and completes the
filter-and-report step regardless of the reachability outcome `api`
(including a transport exception), reporting "Total sites: 5" and "Sites
with priority parameters: 5"; and a failed probe causes an early return
whose output ends with the import-failure line.  `main` is a total
function on every environment, which models the process always exiting
normally with code 0. -/
theorem main_reaches_report_regardless_of_api
    (env : PyEnv) (api : HttpResult) (v x c : String) :
    ((test_imports env).1 = true →
      ("  Total sites: 5" ∈ main env api v x c
       ∧ "\n✅ Sites with priority parameters: 5" ∈ main env api v x c))
    ∧ ((test_imports env).1 = false →
      main env api v x c =
        mainHeader v x c ++ (test_imports env).2 ++ ["❌ Import test failed!"]) := by
  constructor
  · intro h
    have h5 : "  Total sites: " ++ toString create_sample_data.length
        = "  Total sites: 5" := rfl
    have h5' : "\n✅ Sites with priority parameters: "
        ++ toString (priorityFilter create_sample_data).length
        = "\n✅ Sites with priority parameters: 5" := rfl
    constructor <;> simp [main, h, ← h5, ← h5', List.mem_append]
  · intro h
    simp [main, h]

/-- C7 witness: with all three libraries present and the transport raising
a timeout exception, the run still reports both counts. -/
theorem main_reaches_report_regardless_of_api_witness :
    "  Total sites: 5" ∈
      main ⟨.ok "2.0.3", .ok none, .ok "0.14.0"⟩ (.exn "Read timed out.")
        "3.11.0" "/usr/bin/python3" "/repo"
    ∧ "\n✅ Sites with priority parameters: 5" ∈
      main ⟨.ok "2.0.3", .ok none, .ok "0.14.0"⟩ (.exn "Read timed out.")
        "3.11.0" "/usr/bin/python3" "/repo" :=
  (main_reaches_report_regardless_of_api
    ⟨.ok "2.0.3", .ok none, .ok "0.14.0"⟩ (.exn "Read timed out.")
    "3.11.0" "/usr/bin/python3" "/repo").1 rfl

/-- C8 counterexample: in an environment where the HTTP client library
loads successfully and exposes the version string "2.31.0", the probe
succeeds but no printed line contains that version string — so the claim
that every successfully loaded library's confirmation includes a version
string whenever the library exposes one is false for the requests check,
which prints a fixed availability line and never reads the version. -/
theorem test_imports_requests_version_not_printed :
    (test_imports ⟨.ok "2.0.3", .ok (some "2.31.0"), .ok "0.14.0"⟩).1 = true
    ∧ (test_imports ⟨.ok "2.0.3", .ok (some "2.31.0"), .ok "0.14.0"⟩).2.all
        (fun l => !(containsStr l "2.31.0")) = true := by
  decide

/-- C8 amended: the pandas and folium confirmations include the library's
exposed version string; the requests confirmation is the fixed text
"✅ requests available" regardless of any version the library exposes
(the probe's result does not depend on it); and on failure the printed
error includes the failure reason. -/
theorem test_imports_version_reporting
    (pv fv e : String) (rv : Option String) :
    ("✅ pandas " ++ pv) ∈ (test_imports ⟨.ok pv, .ok rv, .ok fv⟩).2
    ∧ ("✅ folium " ++ fv) ∈ (test_imports ⟨.ok pv, .ok rv, .ok fv⟩).2
    ∧ "✅ requests available" ∈ (test_imports ⟨.ok pv, .ok rv, .ok fv⟩).2
    ∧ test_imports ⟨.ok pv, .ok rv, .ok fv⟩ = test_imports ⟨.ok pv, .ok none, .ok fv⟩
    ∧ ("❌ pandas: " ++ e) ∈ (test_imports ⟨.error e, .ok rv, .ok fv⟩).2
    ∧ ("❌ requests: " ++ e) ∈ (test_imports ⟨.ok pv, .error e, .ok fv⟩).2
    ∧ ("❌ folium: " ++ e) ∈ (test_imports ⟨.ok pv, .ok rv, .error e⟩).2 := by
  simp [test_imports]

/-- C9: every record of the sample dataset satisfies the data-model
invariant: non-empty site identifier, site identifiers pairwise distinct
across the 5-record collection, latitude in [-90, 90] and longitude in
[-180, 180]. -/
theorem create_sample_data_invariants :
    (create_sample_data.map (fun r => r.site_no)).Nodup
    ∧ create_sample_data.all (fun r => !(r.site_no == "")) = true
    ∧ create_sample_data.all (fun r =>
        decide ((-90 : Rat) ≤ r.lat) && decide (r.lat ≤ 90)
        && decide ((-180 : Rat) ≤ r.lon) && decide (r.lon ≤ 180)) = true := by
  refine ⟨by decide, by decide, ?_⟩
  simp [create_sample_data, sample_sites]
  norm_num

/-- C10: the priority filter does not alter the input dataset: it selects
rows by a membership mask and copies them, so its result is always a
sublist of its input (each surviving record carried over with every field
unchanged), and on the builder's dataset the filtered copy coincides with
the input record-for-record and field-for-field.  In this pure embedding
the input value itself is unchanged by construction, matching the
source's mask-plus-`.copy()` operation, which never mutates `usgs_sites`. -/
theorem priority_filter_frame :
    priorityFilter create_sample_data = create_sample_data
    ∧ ∀ df : List SampleRow, (priorityFilter df).Sublist df :=
  ⟨rfl, fun df => List.filter_sublist df⟩

end WaterWatcher
